import Mathlib

/-!
Shallow embedding of the OCR-Agent pipeline orchestrator
(`src/modules/ocr/processor.py`) and of the Qwen3-VL provider's two-pass
composite operation (`src/modules/llm/providers/qwen3_vl.py`).

External collaborators (the baseline OCR engine, the layout engine, the
vision-language provider transport) are modelled as oracle functions carried
by an environment; a raised Python exception is modelled as `Except.error`
holding the message.  The filesystem holding transient block-crop artifacts
is modelled as the list of currently existing paths, threaded through the
block loop, and the sequence of paths on which the baseline OCR engine is
invoked is traced alongside so that call-count properties are statable.
-/

namespace OCRAgent

/-- A rectangular region of a document page, as produced by the layout
engine.  The orchestrator never computes with the coordinates; they are
pass-through data. -/
structure BBox where
  x0 : Int
  y0 : Int
  x1 : Int
  y1 : Int
deriving DecidableEq

/-- Result of one baseline OCR engine call,
`glm_ocr.process(path, task="text")`: text, a confidence score, and
optional bounding boxes. -/
structure EngineResult where
  text : String
  confidence : ℚ
  boxes : List BBox
deriving DecidableEq

/-- A layout block returned by `LayoutProcessor.extract_layout_blocks`: a
dictionary with keys `id`, `bbox`, and optionally `type`
(`block.get('type', 'text')` supplies the default). -/
structure Block where
  id : Nat
  bbox : BBox
  type : Option String
deriving DecidableEq

/-- The per-block record appended by the thinking strategy
(processor.py lines 140-146). -/
structure BlockResult where
  block_id : Nat
  bbox : BBox
  type : String
  text : String
  confidence : ℚ
deriving DecidableEq

/-- Values stored in the orchestrator's result metadata dictionaries
(processor.py lines 95-100 and 186-192). -/
inductive MVal where
  | str (s : String)
  | strList (l : List String)
  | nat (n : Nat)
  | blocks (l : List BlockResult)
deriving DecidableEq

/-- `OCRResult` as constructed by the orchestrator (processor.py lines
91-101 and 182-193). -/
structure OCRResult where
  text : String
  boxes : List BBox
  confidence : ℚ
  metadata : List (String × MVal)
deriving DecidableEq

/-- Values stored in `LLMResponse.metadata`. -/
inductive LVal where
  | str (s : String)
  | nat (n : Nat)
deriving DecidableEq

/-- `LLMResponse` as produced by the vision-language provider. -/
structure LLMResponse where
  text : String
  tokens_used : Nat
  metadata : List (String × LVal)
deriving DecidableEq

/-- Lookup in a metadata dictionary modelled as a key-value list whose keys
are unique (every metadata literal in the source has distinct keys). -/
def mlookup {α : Type} (k : String) : List (String × α) → Option α
  | [] => none
  | (key, v) :: rest => if key = k then some v else mlookup k rest

/-- The dictionaries handed to the structuring capability
(processor.py line 173): either the per-block OCR records, or one synthetic
full-text dictionary of the shape
`{'id': 0, 'text': combined_text, 'type': 'full'}`. -/
inductive AnalysisBlock where
  | result (b : BlockResult)
  | full (id : Nat) (text : String) (type : String)
deriving DecidableEq

/-- `b.get('text', '')` over either dictionary shape. -/
def AnalysisBlock.text : AnalysisBlock → String
  | .result b => b.text
  | .full _ t _ => t

/-- The baseline OCR engine capability `process(path, task="text")`;
`Except.error` models a raised exception. -/
abbrev GlmFn := String → Except String EngineResult

/-- The vision-language provider as consumed by the orchestrator.  Each
operation is an oracle giving the provider's answer on the supplied
arguments; `hasStructureBlocks` models
`hasattr(llm_provider, 'structure_blocks')`. -/
structure Provider where
  detect_visual_elements : String → Except String LLMResponse
  integrate_results_text_only : String → String → Except String LLMResponse
  hasStructureBlocks : Bool
  structure_blocks : String → List AnalysisBlock → Except String LLMResponse

/-- The ambient world of one `OCRProcessor` run: the optionally configured
engines (`ocr_engines.get('glm-ocr')`, `ocr_engines.get('marker')`), the
optional provider, the layout-engine operations, and the set of filesystem
paths existing when the run starts. -/
structure Env where
  glm_ocr : Option GlmFn
  marker : Bool
  extract_layout_blocks : String → Except String (List Block)
  save_cropped_block : String → BBox → Except String String
  provider : Option Provider
  fs0 : List String

/-- Structural splitting of a character list at every occurrence of a
one-character separator, as Python `str.split(sep)`. -/
def splitOnChar (sep : Char) : List Char → List (List Char)
  | [] => [[]]
  | c :: cs =>
    match splitOnChar sep cs with
    | [] => [[]]
    | r :: rs => if c = sep then [] :: r :: rs else (c :: r) :: rs

/-- Python `Path(p).name`: the last nonempty slash-separated component. -/
def pathNameChars (p : String) : List Char :=
  ((splitOnChar '/' p.data).filter (fun s => !s.isEmpty)).getLastD []

/-- Python `Path(p).suffix`: from the name's last dot (inclusive) to the
name's end, when that dot is neither the name's first nor its last
character; otherwise empty. -/
def pathSuffix (p : String) : String :=
  match splitOnChar '.' (pathNameChars p) with
  | [] => ""
  | [_] => ""
  | first :: rest =>
    if (rest.getLastD []).isEmpty then ""
    else if first.isEmpty && rest.length == 1 then ""
    else String.mk ('.' :: rest.getLastD [])

/-- processor.py lines 122-123:
`file_ext = Path(input_path).suffix.lower(); is_pdf = file_ext == '.pdf'`. -/
def isPdfInput (input_path : String) : Bool :=
  (pathSuffix input_path).data.map Char.toLower == ['.', 'p', 'd', 'f']

/-- Metadata dictionary of a fast-mode result (processor.py lines 95-100). -/
def fastMetadata (pipeline_steps : List String) (visual_text : String) :
    List (String × MVal) :=
  [("mode", .str "fast-parallel"),
   ("pipeline", .strList pipeline_steps),
   ("engine", .str "qwen3vl+glm-ocr"),
   ("visual_elements", .str visual_text)]

/-- `OCRProcessor.process_fast` (processor.py lines 45-106).  The two
concurrently scheduled calls are joined before anything else happens
(`future_visual.result()` is collected first), so the join is modelled as
two sequential oracle calls with the visual branch's error surfacing first.
The trailing `log_ocr_run` call performs only ambient logging and is
modelled separately by `log_ocr_run` below. -/
def process_fast (env : Env) (input_path : String) : Except String OCRResult :=
  match env.glm_ocr with
  | none => .error "GLM-OCR engine required for fast mode"
  | some glm =>
    match env.provider with
    | none => .error "LLM provider required for fast mode"
    | some prov =>
      match prov.detect_visual_elements input_path with
      | .error e => .error e
      | .ok visual_response =>
        match glm input_path with
        | .error e => .error e
        | .ok glm_result =>
          match prov.integrate_results_text_only visual_response.text glm_result.text with
          | .ok final_response =>
            .ok { text := final_response.text, boxes := [],
                  confidence := glm_result.confidence,
                  metadata := fastMetadata
                    ["qwen3-vl-visual", "glm-ocr", "qwen3-vl-integration-text"]
                    visual_response.text }
          | .error _ =>
            .ok { text := glm_result.text, boxes := [],
                  confidence := glm_result.confidence,
                  metadata := fastMetadata ["qwen3-vl-visual", "glm-ocr"]
                    visual_response.text }

/-- State threaded through the per-block loop of the thinking strategy:
currently existing filesystem paths, accumulated per-block records, and the
trace of paths the baseline OCR engine was invoked on. -/
structure LoopState where
  fs : List String
  block_results : List BlockResult
  ocr_calls : List String
deriving DecidableEq

/-- One iteration of the block loop (processor.py lines 135-151): crop the
block region (creating a transient artifact on success), OCR the crop, and
in a `finally` clause unlink the artifact; any exception of the iteration is
caught and the block is skipped. -/
def processBlock (env : Env) (glm : GlmFn) (input_path : String)
    (st : LoopState) (block : Block) : LoopState :=
  match env.save_cropped_block input_path block.bbox with
  | .error _ => st
  | .ok tmp_path =>
    let fs1 := tmp_path :: st.fs
    match glm tmp_path with
    | .ok block_ocr =>
      { fs := fs1.filter (fun p => p != tmp_path),
        block_results := st.block_results ++
          [{ block_id := block.id, bbox := block.bbox,
             type := block.type.getD "text",
             text := block_ocr.text, confidence := block_ocr.confidence }],
        ocr_calls := st.ocr_calls ++ [tmp_path] }
    | .error _ =>
      { fs := fs1.filter (fun p => p != tmp_path),
        block_results := st.block_results,
        ocr_calls := st.ocr_calls ++ [tmp_path] }

/-- The per-block record contributed by one block of the loop, taken in
isolation: a singleton when crop and OCR both succeed, nothing otherwise. -/
def blockDelta (env : Env) (glm : GlmFn) (input_path : String)
    (block : Block) : List BlockResult :=
  match env.save_cropped_block input_path block.bbox with
  | .error _ => []
  | .ok tmp_path =>
    match glm tmp_path with
    | .ok block_ocr =>
      [{ block_id := block.id, bbox := block.bbox,
         type := block.type.getD "text",
         text := block_ocr.text, confidence := block_ocr.confidence }]
    | .error _ => []

/-- Outcome of the layout phase of the thinking strategy (processor.py
lines 119-157): pipeline steps so far, the detected blocks, the surviving
per-block records, the filesystem, and the OCR call trace. -/
structure ThinkMidState where
  pipeline_steps : List String
  blocks : List Block
  block_results : List BlockResult
  fs : List String
  ocr_calls : List String
deriving DecidableEq

/-- Layout phase of `OCRProcessor.process_thinking` (processor.py lines
119-157).  Layout decomposition runs only when a marker engine is
configured and the input is a PDF; a failure of `extract_layout_blocks` is
caught, leaving no steps and no blocks; when blocks exist the loop runs and
the stage names `marker-layout` and `glm-ocr-blocks` are recorded. -/
def thinkMid (env : Env) (glm : GlmFn) (input_path : String) : ThinkMidState :=
  if env.marker && isPdfInput input_path then
    match env.extract_layout_blocks input_path with
    | .error _ => ⟨[], [], [], env.fs0, []⟩
    | .ok blocks =>
      if blocks.isEmpty then ⟨["marker-layout"], blocks, [], env.fs0, []⟩
      else
        let st := blocks.foldl (processBlock env glm input_path) ⟨env.fs0, [], []⟩
        ⟨["marker-layout", "glm-ocr-blocks"], blocks, st.block_results, st.fs,
         st.ocr_calls⟩
  else ⟨[], [], [], env.fs0, []⟩

/-- processor.py line 166: texts of the surviving blocks with nonempty
text, in block order, joined by a blank line. -/
def combinedText (block_results : List BlockResult) : String :=
  String.intercalate "\n\n"
    ((block_results.filter (fun b => b.text != "")).map (fun b => b.text))

/-- processor.py lines 167-168: arithmetic mean of the confidences strictly
greater than 0 among the surviving block records, 0 when none is positive. -/
def combinedConfidence (block_results : List BlockResult) : ℚ :=
  let confidences :=
    (block_results.filter (fun b => decide (0 < b.confidence))).map
      (fun b => b.confidence)
  if confidences.isEmpty then 0 else confidences.sum / (confidences.length : ℚ)

/-- processor.py line 173: the argument handed to the structuring
capability; the surviving block records, or one synthetic full-text block
when none survived. -/
def blocksForAnalysis (block_results : List BlockResult)
    (combined_text : String) : List AnalysisBlock :=
  if block_results.isEmpty then [.full 0 combined_text "full"]
  else block_results.map .result

/-- Optional structuring stage (processor.py lines 170-180): when the
provider exposes `structure_blocks`, on success the combined text is
replaced and the stage name appended; on any error nothing changes. -/
def applyStructuring (env : Env) (input_path : String)
    (block_results : List BlockResult) (combined_text : String)
    (pipeline_steps : List String) : String × List String :=
  match env.provider with
  | none => (combined_text, pipeline_steps)
  | some prov =>
    if prov.hasStructureBlocks then
      match prov.structure_blocks input_path
              (blocksForAnalysis block_results combined_text) with
      | .ok qwen_response =>
        (qwen_response.text, pipeline_steps ++ ["qwen3-vl-structure"])
      | .error _ => (combined_text, pipeline_steps)
    else (combined_text, pipeline_steps)

/-- Aggregated state right before the optional structuring stage. -/
structure MidAgg where
  mid : ThinkMidState
  combined_text : String
  combined_confidence : ℚ
  pipeline_steps : List String
  ocr_calls : List String
deriving DecidableEq

/-- Fallback and aggregation (processor.py lines 159-168): when no block
record survived the layout phase, run baseline OCR over the whole input as
a single fallback stage (its failure propagates); otherwise aggregate the
block records. -/
def preStructured (env : Env) (glm : GlmFn) (input_path : String) :
    Except String MidAgg :=
  let mid := thinkMid env glm input_path
  if mid.block_results.isEmpty then
    match glm input_path with
    | .error e => .error e
    | .ok glm_result =>
      .ok ⟨mid, glm_result.text, glm_result.confidence,
           mid.pipeline_steps ++ ["glm-ocr-fallback"],
           mid.ocr_calls ++ [input_path]⟩
  else
    .ok ⟨mid, combinedText mid.block_results,
         combinedConfidence mid.block_results,
         mid.pipeline_steps, mid.ocr_calls⟩

/-- Metadata dictionary of a thinking-mode result (processor.py lines
186-192). -/
def thinkingMetadata (pipeline_steps : List String) (blocks : List Block)
    (block_results : List BlockResult) : List (String × MVal) :=
  [("mode", .str "thinking"),
   ("pipeline", .strList pipeline_steps),
   ("blocks_count", .nat blocks.length),
   ("blocks", .blocks block_results),
   ("engine", .str "layout-aware")]

/-- A completed thinking run: the returned result, the final filesystem
state, and the trace of baseline OCR calls. -/
structure ThinkRun where
  result : OCRResult
  fs : List String
  ocr_calls : List String
deriving DecidableEq

/-- `OCRProcessor.process_thinking` (processor.py lines 108-198), composed
from the layout phase, the fallback/aggregation phase, and the optional
structuring stage.  The trailing `log_ocr_run` call performs only ambient
logging and is modelled separately by `log_ocr_run` below. -/
def process_thinking (env : Env) (input_path : String) :
    Except String ThinkRun :=
  match env.glm_ocr with
  | none => .error "GLM-OCR engine required for thinking mode"
  | some glm =>
    match preStructured env glm input_path with
    | .error e => .error e
    | .ok agg =>
      let structured := applyStructuring env input_path agg.mid.block_results
        agg.combined_text agg.pipeline_steps
      .ok { result := { text := structured.1, boxes := [],
                        confidence := agg.combined_confidence,
                        metadata := thinkingMetadata structured.2
                          agg.mid.blocks agg.mid.block_results },
            fs := agg.mid.fs,
            ocr_calls := agg.ocr_calls }

/-- The optional structuring stage succeeded and replaced the combined
text (the `.ok` case of processor.py line 175). -/
def structuringReplaced (env : Env) (input_path : String)
    (block_results : List BlockResult) (combined_text : String) : Prop :=
  ∃ prov r, env.provider = some prov ∧ prov.hasStructureBlocks = true ∧
    prov.structure_blocks input_path
      (blocksForAnalysis block_results combined_text) = .ok r

namespace Qwen3VL

/-- Environment of one `Qwen3VLProvider.structure_blocks` call.
`generate` is the provider's raw generation call (an HTTP request in the
source), an external collaborator modelled as an oracle on the prompt.
Modelled from the spec: `analyze_context`, invoked by `structure_blocks`
as pass 1, is not defined anywhere in the repository sources; following
spec section 4.3 it is an extraction/contextualization call over the image
and the already OCR'd text producing a grounded textual summary, modelled
as an abstract fallible call on those two arguments. -/
structure QwenEnv where
  model : String
  analyze_context : String → String → Except String LLMResponse
  generate : String → Except String LLMResponse

/-- qwen3_vl.py line 187: `"\n".join([b.get('text', '') for b in blocks if
b.get('text')])`. -/
def fullTextOf (blocks : List AnalysisBlock) : String :=
  String.intercalate "\n"
    ((blocks.filter (fun b => b.text != "")).map (fun b => b.text))

/-- Body of the pass-2 prompt following the embedded pass-1 output
(qwen3_vl.py lines 198-248). -/
def pass2Instructions : String :=
"## 1. DATA VALIDATION & QUALITY
- Completeness: missing fields, truncated data, unclear values
- Consistency: mismatched values, logical errors, formatting issues
- Anomalies: unusual patterns, out-of-range values, unexpected data
- OCR errors or ambiguities

## 2. CAUSE-EFFECT ANALYSIS
For each anomaly or unusual pattern:
- **Identify the effect** (what is abnormal)
- **Analyze control responses** (what actions system is taking)
- **Explain the cause** (why this is happening)
- Example: \"Valve 100% + Heat Exchanger 51.4°C but Bath only 29°C
           → System actively heating but insufficient heat delivery
           → Possible causes: high heat loss, circulation issue, recent water change\"

For environmental factors:
- Connect external conditions to system behavior
- Example: \"-10.2°C outdoor → Rapid heat loss in open-air baths
           → System compensating with higher temps (43.9°C vs 42°C target)\"

## 3. OPERATIONAL STATE ASSESSMENT
- Evaluate if control actions match targets
- Identify stuck/failed vs correctly operating components
- Example: \"0% valve with 43.9°C bath (target 42°C) = CORRECT (no heating needed),
           NOT a malfunction\"
- Assess system efficiency and performance

## 4. CONTEXTUAL INTELLIGENCE
- Domain-specific insights (safety, efficiency, operational norms)
- Time-based patterns and their implications
- Priority assessment (Critical/Important/Monitor)
- Safety threshold implications

## 5. EXPERT RECOMMENDATIONS
**Critical (Immediate Action):**
- Issues requiring urgent attention
- Safety concerns

**Important (Near-term):**
- Performance optimization
- Preventive measures

**Monitoring (Track):**
- Trends to watch
- Normal variation vs developing issues

**Root Cause Hypotheses:**
- Clearly mark as hypotheses
- Suggest verification steps

Use clear markdown: ## headers, **bold** critical items, bullet points. Be specific and actionable."

/-- The pass-2 prompt (qwen3_vl.py lines 194-248): it embeds pass 1's full
output verbatim between the heading and the analysis instructions. -/
def pass2Prompt (pass1_text : String) : String :=
  "Provide EXPERT-LEVEL analysis of this extracted data:\n\n" ++ pass1_text
    ++ "\n\n" ++ pass2Instructions

/-- `Qwen3VLProvider.structure_blocks` (qwen3_vl.py lines 184-265): pass 1
contextualizes image and OCR text; pass 2 generates over a prompt embedding
pass 1's output; the returned response carries pass 2's text, the exact sum
of both token counts, and metadata retaining pass 1's text and each pass's
token count. -/
def structure_blocks (qenv : QwenEnv) (image_path : String)
    (blocks : List AnalysisBlock) : Except String LLMResponse :=
  let full_text := fullTextOf blocks
  match qenv.analyze_context image_path full_text with
  | .error e => .error e
  | .ok pass1_response =>
    match qenv.generate (pass2Prompt pass1_response.text) with
    | .error e => .error e
    | .ok pass2_response =>
      .ok { text := pass2_response.text,
            tokens_used := pass1_response.tokens_used + pass2_response.tokens_used,
            metadata := [("model", .str qenv.model),
                         ("provider", .str "qwen3-vl"),
                         ("mode", .str "two-pass-thinking"),
                         ("pass1_tokens", .nat pass1_response.tokens_used),
                         ("pass2_tokens", .nat pass2_response.tokens_used),
                         ("pass1_extraction", .str pass1_response.text)] }

end Qwen3VL

/-- Python `round(x, 2)` idealized over exact rationals: round half to
even at the second decimal. -/
def roundHalfEven (q : ℚ) : ℤ :=
  if q - ⌊q⌋ < 1/2 then ⌊q⌋
  else if 1/2 < q - ⌊q⌋ then ⌊q⌋ + 1
  else if ⌊q⌋ % 2 = 0 then ⌊q⌋ else ⌊q⌋ + 1

/-- Two-decimal rounding used for `execution_time_seconds`. -/
def round2 (q : ℚ) : ℚ := (roundHalfEven (q * 100) : ℚ) / 100

/-- The JSON record written by `log_ocr_run` (processor.py lines 21-31). -/
structure RunRecord where
  timestamp : String
  mode : String
  input_path : String
  execution_time_seconds : ℚ
  result_text : String
  result_confidence : ℚ
  result_metadata : List (String × MVal)
deriving DecidableEq

/-- processor.py line 19: `f'logs/ocr/{mode}_{timestamp}.json'` where the
timestamp is `datetime.now().strftime('%Y%m%d_%H%M%S')`, second-granular. -/
def logFileName (mode timestamp : String) : String :=
  "logs/ocr/" ++ mode ++ "_" ++ timestamp ++ ".json"

/-- `log_ocr_run` (processor.py lines 15-36): one file written per call,
named from the mode and the wall-clock second, holding the timestamp, mode,
input path, two-decimal execution time, and a full snapshot of the result.
The two timestamp readings (compact for the name, ISO for the record) are
supplied by the caller since wall-clock time is ambient. -/
def log_ocr_run (mode : String) (timestamp_compact timestamp_iso : String)
    (input_path : String) (result : OCRResult) (execution_time : ℚ) :
    String × RunRecord :=
  (logFileName mode timestamp_compact,
   { timestamp := timestamp_iso, mode := mode, input_path := input_path,
     execution_time_seconds := round2 execution_time,
     result_text := result.text, result_confidence := result.confidence,
     result_metadata := result.metadata })

/-! ## Concrete collaborators used by the witness and counterexample runs -/

/-- A baseline OCR engine answering every path with the same result. -/
def glmW : GlmFn := fun _ => .ok ⟨"ocr text", 9/10, []⟩

/-- A provider whose integration succeeds and that lacks the structuring
capability. -/
def provW : Provider :=
  { detect_visual_elements := fun _ => .ok ⟨"visual report", 5, []⟩,
    integrate_results_text_only := fun _ _ => .ok ⟨"merged document", 7, []⟩,
    hasStructureBlocks := false,
    structure_blocks := fun _ _ => .error "unsupported" }

/-- Environment for the fast-strategy witness run. -/
def envFastW : Env :=
  { glm_ocr := some glmW, marker := false,
    extract_layout_blocks := fun _ => .ok [],
    save_cropped_block := fun _ _ => .error "no crop",
    provider := some provW, fs0 := [] }

/-! ## Claim theorems -/

/-- C1: for every fast-strategy run in which visual-element detection and
baseline OCR both succeed, the result's text equals the integration call's
output when integration succeeds and the raw OCR text when it raises (the
run is never aborted by integration failure); the result's confidence is
the OCR engine's confidence in both cases; the pipeline metadata contains
the integration stage iff integration succeeded; and the metadata retains
the raw visual-element text regardless of the integration outcome. -/
theorem fast_strategy_integration_contract (env : Env) (input_path : String)
    (glm : GlmFn) (prov : Provider) (v : LLMResponse) (g : EngineResult)
    (hglm : env.glm_ocr = some glm)
    (hprov : env.provider = some prov)
    (hv : prov.detect_visual_elements input_path = .ok v)
    (hg : glm input_path = .ok g) :
    ∃ res steps, process_fast env input_path = .ok res ∧
      res.confidence = g.confidence ∧
      mlookup "visual_elements" res.metadata = some (.str v.text) ∧
      mlookup "pipeline" res.metadata = some (.strList steps) ∧
      (match prov.integrate_results_text_only v.text g.text with
       | .ok f => res.text = f.text ∧
           steps = ["qwen3-vl-visual", "glm-ocr", "qwen3-vl-integration-text"]
       | .error _ => res.text = g.text ∧
           steps = ["qwen3-vl-visual", "glm-ocr"]) ∧
      (("qwen3-vl-integration-text" ∈ steps) ↔
        ∃ f, prov.integrate_results_text_only v.text g.text = .ok f) := by
  cases hi : prov.integrate_results_text_only v.text g.text with
  | ok f =>
    have hrun : process_fast env input_path = .ok
        { text := f.text, boxes := [], confidence := g.confidence,
          metadata := fastMetadata
            ["qwen3-vl-visual", "glm-ocr", "qwen3-vl-integration-text"]
            v.text } := by
      simp only [process_fast, hglm, hprov, hv, hg, hi]
    refine ⟨_, ["qwen3-vl-visual", "glm-ocr", "qwen3-vl-integration-text"],
      hrun, rfl, ?_, ?_, ?_, ?_⟩
    · simp [mlookup, fastMetadata]
    · simp [mlookup, fastMetadata]
    · exact ⟨rfl, rfl⟩
    · exact ⟨fun _ => ⟨f, rfl⟩, fun _ => by decide⟩
  | error e =>
    have hrun : process_fast env input_path = .ok
        { text := g.text, boxes := [], confidence := g.confidence,
          metadata := fastMetadata ["qwen3-vl-visual", "glm-ocr"] v.text } := by
      simp only [process_fast, hglm, hprov, hv, hg, hi]
    refine ⟨_, ["qwen3-vl-visual", "glm-ocr"], hrun, rfl, ?_, ?_, ?_, ?_⟩
    · simp [mlookup, fastMetadata]
    · simp [mlookup, fastMetadata]
    · exact ⟨rfl, rfl⟩
    · refine ⟨fun hmem => absurd hmem (by decide), fun hex => ?_⟩
      obtain ⟨f, hf⟩ := hex
      cases hf

/-- Witness for the fast-strategy contract: a concrete run where both
concurrent calls and the integration call succeed. -/
theorem fast_strategy_integration_contract_witness :
    ∃ res steps, process_fast envFastW "img.png" = .ok res ∧
      res.confidence = (⟨"ocr text", 9/10, []⟩ : EngineResult).confidence ∧
      mlookup "visual_elements" res.metadata =
        some (.str (⟨"visual report", 5, []⟩ : LLMResponse).text) ∧
      mlookup "pipeline" res.metadata = some (.strList steps) ∧
      (match provW.integrate_results_text_only
          (⟨"visual report", 5, []⟩ : LLMResponse).text
          (⟨"ocr text", 9/10, []⟩ : EngineResult).text with
       | .ok f => res.text = f.text ∧
           steps = ["qwen3-vl-visual", "glm-ocr", "qwen3-vl-integration-text"]
       | .error _ => res.text = (⟨"ocr text", 9/10, []⟩ : EngineResult).text ∧
           steps = ["qwen3-vl-visual", "glm-ocr"]) ∧
      (("qwen3-vl-integration-text" ∈ steps) ↔
        ∃ f, provW.integrate_results_text_only
          (⟨"visual report", 5, []⟩ : LLMResponse).text
          (⟨"ocr text", 9/10, []⟩ : EngineResult).text = .ok f) :=
  fast_strategy_integration_contract envFastW "img.png" glmW provW
    ⟨"visual report", 5, []⟩ ⟨"ocr text", 9/10, []⟩ rfl rfl rfl rfl

/-- C10: every result returned by either strategy carries an empty boxes
field; bounding boxes reported by the OCR engine are never passed through. -/
theorem result_boxes_empty (env : Env) (input_path : String) :
    (∀ res, process_fast env input_path = .ok res → res.boxes = []) ∧
    (∀ run, process_thinking env input_path = .ok run →
      run.result.boxes = []) := by
  constructor
  · intro res h
    unfold process_fast at h
    repeat' split at h
    all_goals (cases h <;> rfl)
  · intro run h
    unfold process_thinking at h
    repeat' split at h
    all_goals (cases h <;> rfl)

/-- Witness for the empty-boxes invariant: a concrete fast run, evaluated. -/
theorem result_boxes_empty_witness :
    process_fast envFastW "img.png" = .ok
      { text := "merged document", boxes := [], confidence := 9/10,
        metadata := fastMetadata
          ["qwen3-vl-visual", "glm-ocr", "qwen3-vl-integration-text"]
          "visual report" } ∧
    ({ text := "merged document", boxes := [], confidence := 9/10,
       metadata := fastMetadata
         ["qwen3-vl-visual", "glm-ocr", "qwen3-vl-integration-text"]
         "visual report" } : OCRResult).boxes = [] :=
  ⟨rfl, (result_boxes_empty envFastW "img.png").1 _ rfl⟩

/-- C6: after one block's loop iteration completes — whether its OCR call
succeeds or raises — the transient cropped artifact created for that block
no longer exists on the filesystem. -/
theorem crop_artifact_removed (env : Env) (glm : GlmFn) (input_path : String)
    (st : LoopState) (block : Block) (tmp_path : String)
    (hsave : env.save_cropped_block input_path block.bbox = .ok tmp_path) :
    tmp_path ∉ (processBlock env glm input_path st block).fs := by
  unfold processBlock
  rw [hsave]
  cases ho : glm tmp_path <;> simp [ho, List.mem_filter]

/-- A block used by witness runs. -/
def blockW : Block := ⟨1, ⟨0, 0, 10, 10⟩, some "text"⟩

/-- Environment whose crop call succeeds, for the artifact-removal witness. -/
def envCropW : Env :=
  { glm_ocr := some glmW, marker := true,
    extract_layout_blocks := fun _ => .ok [blockW],
    save_cropped_block := fun _ _ => .ok "crops/tmp1.png",
    provider := none, fs0 := [] }

/-- Witness for artifact removal: even starting from a filesystem already
holding the artifact path, the path is gone after the iteration. -/
theorem crop_artifact_removed_witness :
    "crops/tmp1.png" ∉
      (processBlock envCropW glmW "doc.pdf"
        ⟨["crops/tmp1.png"], [], []⟩ blockW).fs :=
  crop_artifact_removed envCropW glmW "doc.pdf"
    ⟨["crops/tmp1.png"], [], []⟩ blockW "crops/tmp1.png" rfl

/-- C4: when both passes of the two-pass structured analysis succeed, the
returned response's token count is exactly the sum of both passes' token
counts, its primary text is pass 2's output only, and its metadata retains
pass 1's raw text and each pass's individual token count. -/
theorem structure_blocks_two_pass_contract (qenv : Qwen3VL.QwenEnv)
    (image_path : String) (blocks : List AnalysisBlock) (p1 p2 : LLMResponse)
    (h1 : qenv.analyze_context image_path (Qwen3VL.fullTextOf blocks) = .ok p1)
    (h2 : qenv.generate (Qwen3VL.pass2Prompt p1.text) = .ok p2) :
    ∃ r, Qwen3VL.structure_blocks qenv image_path blocks = .ok r ∧
      r.tokens_used = p1.tokens_used + p2.tokens_used ∧
      r.text = p2.text ∧
      mlookup "pass1_extraction" r.metadata = some (.str p1.text) ∧
      mlookup "pass1_tokens" r.metadata = some (.nat p1.tokens_used) ∧
      mlookup "pass2_tokens" r.metadata = some (.nat p2.tokens_used) := by
  have hrun : Qwen3VL.structure_blocks qenv image_path blocks = .ok
      { text := p2.text, tokens_used := p1.tokens_used + p2.tokens_used,
        metadata := [("model", .str qenv.model),
                     ("provider", .str "qwen3-vl"),
                     ("mode", .str "two-pass-thinking"),
                     ("pass1_tokens", .nat p1.tokens_used),
                     ("pass2_tokens", .nat p2.tokens_used),
                     ("pass1_extraction", .str p1.text)] } := by
    simp only [Qwen3VL.structure_blocks, h1, h2]
  refine ⟨_, hrun, rfl, rfl, ?_, ?_, ?_⟩ <;> simp [mlookup]

/-- Environment for the two-pass witness call. -/
def qenvW : Qwen3VL.QwenEnv :=
  { model := "qwen3-vl:8b",
    analyze_context := fun _ _ => .ok ⟨"pass1 summary", 11, []⟩,
    generate := fun _ => .ok ⟨"pass2 analysis", 22, []⟩ }

/-- Witness for the two-pass contract at a concrete call. -/
theorem structure_blocks_two_pass_contract_witness :
    ∃ r, Qwen3VL.structure_blocks qenvW "img.png"
        [.full 0 "raw ocr text" "full"] = .ok r ∧
      r.tokens_used = (⟨"pass1 summary", 11, []⟩ : LLMResponse).tokens_used +
        (⟨"pass2 analysis", 22, []⟩ : LLMResponse).tokens_used ∧
      r.text = (⟨"pass2 analysis", 22, []⟩ : LLMResponse).text ∧
      mlookup "pass1_extraction" r.metadata =
        some (.str (⟨"pass1 summary", 11, []⟩ : LLMResponse).text) ∧
      mlookup "pass1_tokens" r.metadata =
        some (.nat (⟨"pass1 summary", 11, []⟩ : LLMResponse).tokens_used) ∧
      mlookup "pass2_tokens" r.metadata =
        some (.nat (⟨"pass2 analysis", 22, []⟩ : LLMResponse).tokens_used) :=
  structure_blocks_two_pass_contract qenvW "img.png"
    [.full 0 "raw ocr text" "full"] ⟨"pass1 summary", 11, []⟩
    ⟨"pass2 analysis", 22, []⟩ rfl rfl

/-! ## Decomposition of the block loop -/

/-- One loop iteration appends exactly the block's isolated contribution to
the accumulated records. -/
lemma processBlock_block_results (env : Env) (glm : GlmFn)
    (input_path : String) (st : LoopState) (block : Block) :
    (processBlock env glm input_path st block).block_results =
      st.block_results ++ blockDelta env glm input_path block := by
  unfold processBlock blockDelta
  cases hs : env.save_cropped_block input_path block.bbox with
  | error e => simp [hs]
  | ok tmp => cases ho : glm tmp <;> simp [hs, ho]

/-- The whole loop produces the concatenation of the per-block
contributions, in block order, after the initial records. -/
lemma foldl_block_results (env : Env) (glm : GlmFn) (input_path : String)
    (blocks : List Block) (st : LoopState) :
    (blocks.foldl (processBlock env glm input_path) st).block_results =
      st.block_results ++
        (blocks.map (blockDelta env glm input_path)).flatten := by
  induction blocks generalizing st with
  | nil => simp
  | cons b bs ih =>
    simp [List.foldl_cons, ih, processBlock_block_results, List.append_assoc]

/-- A block whose crop or OCR raises contributes nothing. -/
lemma blockDelta_eq_nil_of_fail (env : Env) (glm : GlmFn)
    (input_path : String) (b : Block)
    (hfail : (∃ e, env.save_cropped_block input_path b.bbox = .error e) ∨
      (∃ tmp e, env.save_cropped_block input_path b.bbox = .ok tmp ∧
        glm tmp = .error e)) :
    blockDelta env glm input_path b = [] := by
  unfold blockDelta
  rcases hfail with ⟨e, he⟩ | ⟨tmp, e, hs, ho⟩
  · simp [he]
  · simp [hs, ho]

/-- Every record surviving the layout phase carries a confidence reported
by a successful baseline OCR call. -/
lemma blockDelta_conf_mem (env : Env) (glm : GlmFn) (input_path : String)
    (block : Block) (br : BlockResult)
    (hconf : ∀ p r, glm p = .ok r → 0 ≤ r.confidence ∧ r.confidence ≤ 1)
    (h : br ∈ blockDelta env glm input_path block) :
    0 ≤ br.confidence ∧ br.confidence ≤ 1 := by
  unfold blockDelta at h
  rcases hs : env.save_cropped_block input_path block.bbox with e | tmp
  · simp [hs] at h
  · simp only [hs] at h
    rcases ho : glm tmp with e | r
    · simp [ho] at h
    · simp only [ho, List.mem_singleton] at h
      subst h
      exact hconf tmp r ho

/-- Confidence bound propagated through the layout phase. -/
lemma thinkMid_results_conf (env : Env) (glm : GlmFn) (input_path : String)
    (hconf : ∀ p r, glm p = .ok r → 0 ≤ r.confidence ∧ r.confidence ≤ 1) :
    ∀ br ∈ (thinkMid env glm input_path).block_results,
      0 ≤ br.confidence ∧ br.confidence ≤ 1 := by
  intro br hbr
  unfold thinkMid at hbr
  split at hbr
  · split at hbr
    · simp at hbr
    · split at hbr
      · simp at hbr
      · dsimp only at hbr
        rw [foldl_block_results] at hbr
        simp only [List.nil_append, List.mem_flatten, List.mem_map] at hbr
        obtain ⟨l, ⟨b, hb, rfl⟩, hbl⟩ := hbr
        exact blockDelta_conf_mem env glm input_path b br hconf hbl
  · simp at hbr

/-- The mean of a nonempty list of values in the half-open unit interval
lies in the unit interval; the empty case yields 0. -/
lemma mean_in_unit (l : List ℚ) (h0 : ∀ x ∈ l, 0 < x)
    (h1 : ∀ x ∈ l, x ≤ 1) :
    0 ≤ (if l.isEmpty then (0:ℚ) else l.sum / (l.length : ℚ)) ∧
      (if l.isEmpty then (0:ℚ) else l.sum / (l.length : ℚ)) ≤ 1 := by
  rcases l with _ | ⟨a, as⟩
  · simp
  · have hlen : (0:ℚ) < ((a :: as).length : ℚ) := by
      exact_mod_cast Nat.succ_pos as.length
    have hsum0 : 0 ≤ (a :: as).sum :=
      List.sum_nonneg (fun x hx => le_of_lt (h0 x hx))
    have hsum1 : (a :: as).sum ≤ ((a :: as).length : ℚ) := by
      have := List.sum_le_card_nsmul (a :: as) 1 h1
      simpa [nsmul_eq_mul] using this
    simp only [List.isEmpty_cons, Bool.false_eq_true, if_false]
    constructor
    · exact div_nonneg hsum0 (le_of_lt hlen)
    · rw [div_le_one hlen]
      exact hsum1

/-- The aggregated confidence of the surviving blocks is in the unit
interval whenever each block confidence is. -/
lemma combinedConfidence_in_unit (brs : List BlockResult)
    (h : ∀ br ∈ brs, 0 ≤ br.confidence ∧ br.confidence ≤ 1) :
    0 ≤ combinedConfidence brs ∧ combinedConfidence brs ≤ 1 := by
  have h0 : ∀ x ∈ (brs.filter (fun b => decide (0 < b.confidence))).map
      (fun b => b.confidence), 0 < x := by
    intro x hx
    simp only [List.mem_map, List.mem_filter, decide_eq_true_eq] at hx
    obtain ⟨br, ⟨_, hpos⟩, rfl⟩ := hx
    exact hpos
  have h1 : ∀ x ∈ (brs.filter (fun b => decide (0 < b.confidence))).map
      (fun b => b.confidence), x ≤ 1 := by
    intro x hx
    simp only [List.mem_map, List.mem_filter, decide_eq_true_eq] at hx
    obtain ⟨br, ⟨hmem, _⟩, rfl⟩ := hx
    exact (h br hmem).2
  exact mean_in_unit _ h0 h1

/-- C8: under the precondition that every confidence reported by the OCR
engine lies in the unit interval, every result produced by either strategy
has its confidence in the unit interval. -/
theorem confidence_bounded (env : Env) (input_path : String) (glm : GlmFn)
    (hglm : env.glm_ocr = some glm)
    (hconf : ∀ p r, glm p = .ok r → 0 ≤ r.confidence ∧ r.confidence ≤ 1) :
    (∀ res, process_fast env input_path = .ok res →
      0 ≤ res.confidence ∧ res.confidence ≤ 1) ∧
    (∀ run, process_thinking env input_path = .ok run →
      0 ≤ run.result.confidence ∧ run.result.confidence ≤ 1) := by
  constructor
  · intro res h
    unfold process_fast at h
    simp only [hglm] at h
    rcases hp : env.provider with _ | prov <;> simp only [hp] at h
    · cases h
    · rcases hv : prov.detect_visual_elements input_path with e | v <;>
        simp only [hv] at h
      · cases h
      · rcases hg : glm input_path with e | g <;> simp only [hg] at h
        · cases h
        · rcases hi : prov.integrate_results_text_only v.text g.text with
            e | f <;> simp only [hi] at h <;> cases h <;>
            exact hconf input_path g hg
  · intro run h
    unfold process_thinking at h
    simp only [hglm] at h
    rcases hpre : preStructured env glm input_path with e | agg <;>
      simp only [hpre] at h
    · cases h
    · cases h
      simp only [preStructured] at hpre
      split at hpre
      · rcases hg : glm input_path with e | g <;> simp only [hg] at hpre
        · cases hpre
        · cases hpre
          exact hconf input_path g hg
      · cases hpre
        exact combinedConfidence_in_unit _
          (thinkMid_results_conf env glm input_path hconf)

/-- Witness for the confidence bound at a concrete fast run. -/
theorem confidence_bounded_witness :
    0 ≤ ((9:ℚ)/10) ∧ ((9:ℚ)/10) ≤ 1 :=
  (confidence_bounded envFastW "img.png" glmW rfl
    (by intro p r hr; simp only [glmW] at hr; cases hr
        constructor <;> norm_num)).1
    { text := "merged document", boxes := [], confidence := 9/10,
      metadata := fastMetadata
        ["qwen3-vl-visual", "glm-ocr", "qwen3-vl-integration-text"]
        "visual report" } rfl

/-! ## The optional structuring stage -/

/-- Structuring preserves every stage name already recorded. -/
lemma applyStructuring_steps_mem (env : Env) (input_path : String)
    (brs : List BlockResult) (txt : String) (steps : List String)
    (x : String) (hx : x ∈ steps) :
    x ∈ (applyStructuring env input_path brs txt steps).2 := by
  unfold applyStructuring
  rcases hp : env.provider with _ | prov
  · exact hx
  · dsimp only
    by_cases hcap : prov.hasStructureBlocks = true
    · rw [if_pos hcap]
      rcases hsb : prov.structure_blocks input_path
          (blocksForAnalysis brs txt) with e | r
      · exact hx
      · simp [hx]
    · rw [if_neg hcap]
      exact hx

/-- When the structuring call is absent, unexposed, or fails, the combined
text passes through the stage unchanged. -/
lemma applyStructuring_text_of_not_replaced (env : Env) (input_path : String)
    (brs : List BlockResult) (txt : String) (steps : List String)
    (hnr : ¬ structuringReplaced env input_path brs txt) :
    (applyStructuring env input_path brs txt steps).1 = txt := by
  unfold applyStructuring
  rcases hp : env.provider with _ | prov
  · rfl
  · dsimp only
    by_cases hcap : prov.hasStructureBlocks = true
    · rw [if_pos hcap]
      rcases hsb : prov.structure_blocks input_path
          (blocksForAnalysis brs txt) with e | r
      · rfl
      · exact absurd ⟨prov, r, hp, hcap, hsb⟩ hnr
    · rw [if_neg hcap]

/-- When layout decomposition is skipped or raises, the layout phase
records nothing. -/
lemma thinkMid_skip (env : Env) (glm : GlmFn) (input_path : String)
    (h : env.marker = false ∨ isPdfInput input_path = false ∨
      ∃ e, env.extract_layout_blocks input_path = .error e) :
    thinkMid env glm input_path = ⟨[], [], [], env.fs0, []⟩ := by
  unfold thinkMid
  rcases h with h | h | ⟨e, he⟩
  · simp [h]
  · simp [h]
  · by_cases hc : (env.marker && isPdfInput input_path) = true
    · rw [if_pos hc]
      simp only [he]
    · rw [if_neg hc]

/-- C2 (amended): when layout decomposition was skipped, failed, or left no
surviving block record, and the whole-input fallback OCR call succeeds, the
run completes with exactly one whole-input OCR call appended as the
fallback stage, the pipeline metadata contains the fallback stage, the
result's confidence is that call's confidence, and — unless the optional
structuring capability subsequently succeeded and replaced it — the
result's text is that call's text. -/
theorem thinking_fallback_contract (env : Env) (input_path : String)
    (glm : GlmFn) (g : EngineResult)
    (hglm : env.glm_ocr = some glm)
    (hskip : env.marker = false ∨ isPdfInput input_path = false ∨
      (∃ e, env.extract_layout_blocks input_path = .error e) ∨
      (thinkMid env glm input_path).block_results = [])
    (hg : glm input_path = .ok g) :
    ∃ run steps, process_thinking env input_path = .ok run ∧
      mlookup "pipeline" run.result.metadata = some (.strList steps) ∧
      "glm-ocr-fallback" ∈ steps ∧
      run.ocr_calls = (thinkMid env glm input_path).ocr_calls ++ [input_path] ∧
      ((env.marker = false ∨ isPdfInput input_path = false ∨
          ∃ e, env.extract_layout_blocks input_path = .error e) →
        run.ocr_calls = [input_path]) ∧
      run.result.confidence = g.confidence ∧
      (¬ structuringReplaced env input_path [] g.text →
        run.result.text = g.text) := by
  have hempty : (thinkMid env glm input_path).block_results = [] := by
    rcases hskip with h | h | h | h
    · rw [thinkMid_skip env glm input_path (Or.inl h)]
    · rw [thinkMid_skip env glm input_path (Or.inr (Or.inl h))]
    · rw [thinkMid_skip env glm input_path (Or.inr (Or.inr h))]
    · exact h
  have hpre : preStructured env glm input_path = .ok
      ⟨thinkMid env glm input_path, g.text, g.confidence,
       (thinkMid env glm input_path).pipeline_steps ++ ["glm-ocr-fallback"],
       (thinkMid env glm input_path).ocr_calls ++ [input_path]⟩ := by
    simp only [preStructured, hempty, List.isEmpty_nil, if_true, hg]
  have hrun : process_thinking env input_path = .ok
      ⟨⟨(applyStructuring env input_path [] g.text
          ((thinkMid env glm input_path).pipeline_steps ++
            ["glm-ocr-fallback"])).1,
        [], g.confidence,
        thinkingMetadata
          (applyStructuring env input_path [] g.text
            ((thinkMid env glm input_path).pipeline_steps ++
              ["glm-ocr-fallback"])).2
          (thinkMid env glm input_path).blocks []⟩,
       (thinkMid env glm input_path).fs,
       (thinkMid env glm input_path).ocr_calls ++ [input_path]⟩ := by
    simp only [process_thinking, hglm, hpre, hempty]
  refine ⟨_, (applyStructuring env input_path [] g.text
      ((thinkMid env glm input_path).pipeline_steps ++
        ["glm-ocr-fallback"])).2,
    hrun, ?_, ?_, rfl, ?_, rfl, ?_⟩
  · simp [mlookup, thinkingMetadata]
  · exact applyStructuring_steps_mem env input_path [] g.text _
      "glm-ocr-fallback" (by simp)
  · intro h3
    show (thinkMid env glm input_path).ocr_calls ++ [input_path] =
      [input_path]
    rw [thinkMid_skip env glm input_path h3]
    rfl
  · intro hnr
    exact applyStructuring_text_of_not_replaced env input_path [] g.text
      _ hnr

/-- Witness for the fallback contract: a concrete run with no layout
engine whose fallback OCR succeeds. -/
theorem thinking_fallback_contract_witness :
    ∃ run steps, process_thinking envFastW "img.png" = .ok run ∧
      mlookup "pipeline" run.result.metadata = some (.strList steps) ∧
      "glm-ocr-fallback" ∈ steps ∧
      run.ocr_calls =
        (thinkMid envFastW glmW "img.png").ocr_calls ++ ["img.png"] ∧
      ((envFastW.marker = false ∨ isPdfInput "img.png" = false ∨
          ∃ e, envFastW.extract_layout_blocks "img.png" = .error e) →
        run.ocr_calls = ["img.png"]) ∧
      run.result.confidence =
        (⟨"ocr text", 9/10, []⟩ : EngineResult).confidence ∧
      (¬ structuringReplaced envFastW "img.png" []
          (⟨"ocr text", 9/10, []⟩ : EngineResult).text →
        run.result.text = (⟨"ocr text", 9/10, []⟩ : EngineResult).text) :=
  thinking_fallback_contract envFastW "img.png" glmW
    ⟨"ocr text", 9/10, []⟩ rfl (Or.inl rfl) rfl

/-- A provider exposing a structuring capability that succeeds. -/
def provStructW : Provider :=
  { detect_visual_elements := fun _ => .error "unused",
    integrate_results_text_only := fun _ _ => .error "unused",
    hasStructureBlocks := true,
    structure_blocks := fun _ _ => .ok ⟨"structured analysis", 3, []⟩ }

/-- A baseline OCR engine answering every path with text A. -/
def glmA : GlmFn := fun _ => .ok ⟨"A", 1/2, []⟩

/-- A fallback run whose structuring stage succeeds. -/
def envC2cex : Env :=
  { glm_ocr := some glmA, marker := false,
    extract_layout_blocks := fun _ => .ok [],
    save_cropped_block := fun _ _ => .error "no crop",
    provider := some provStructW, fs0 := [] }

/-- C2 counterexample: a fallback run whose structuring stage succeeds
returns the structuring output, not the whole-input OCR call's text, even
though the fallback stage ran — refuting the claim's unconditional text
equality. -/
theorem thinking_fallback_text_counterexample :
    process_thinking envC2cex "img.png" = .ok
      ⟨⟨"structured analysis", [], 1/2,
        thinkingMetadata ["glm-ocr-fallback", "qwen3-vl-structure"] [] []⟩,
       [], ["img.png"]⟩ ∧
    glmA "img.png" = .ok ⟨"A", 1/2, []⟩ ∧
    ("structured analysis" : String) ≠ "A" := by
  refine ⟨rfl, rfl, by decide⟩

/-! ## Aggregation (claim C3) -/

/-- Confidence aggregation as claim C3 words it, written out for
comparison with the source's aggregation: the arithmetic mean of the
confidences strictly greater than 0 among only the blocks that produced
text. -/
def claimedCombinedConfidence (block_results : List BlockResult) : ℚ :=
  let confidences := ((block_results.filter (fun b => b.text != "")).filter
      (fun b => decide (0 < b.confidence))).map (fun b => b.confidence)
  if confidences.isEmpty then 0
  else confidences.sum / (confidences.length : ℚ)

/-- C3 (amended): for every thinking run that used per-block results, the
result's confidence is the arithmetic mean of the confidences strictly
greater than 0 among all surviving block records — including records whose
text is empty — or 0 when none is positive; and, unless the structuring
stage replaced it, the result's text is the concatenation of the non-empty
per-block texts, in block order, joined by a blank line. -/
theorem thinking_aggregation_contract (env : Env) (input_path : String)
    (glm : GlmFn)
    (hglm : env.glm_ocr = some glm)
    (hne : (thinkMid env glm input_path).block_results ≠ []) :
    ∃ run, process_thinking env input_path = .ok run ∧
      mlookup "blocks" run.result.metadata =
        some (.blocks (thinkMid env glm input_path).block_results) ∧
      run.result.confidence =
        (let cs := ((thinkMid env glm input_path).block_results.filter
            (fun b => decide (0 < b.confidence))).map (fun b => b.confidence)
         if cs.isEmpty then 0 else cs.sum / (cs.length : ℚ)) ∧
      (¬ structuringReplaced env input_path
          (thinkMid env glm input_path).block_results
          (combinedText (thinkMid env glm input_path).block_results) →
        run.result.text = String.intercalate "\n\n"
          (((thinkMid env glm input_path).block_results.filter
            (fun b => b.text != "")).map (fun b => b.text))) := by
  have hfalse : (thinkMid env glm input_path).block_results.isEmpty = false := by
    cases hbr : (thinkMid env glm input_path).block_results with
    | nil => exact absurd hbr hne
    | cons a l => rfl
  have hpre : preStructured env glm input_path = .ok
      ⟨thinkMid env glm input_path,
       combinedText (thinkMid env glm input_path).block_results,
       combinedConfidence (thinkMid env glm input_path).block_results,
       (thinkMid env glm input_path).pipeline_steps,
       (thinkMid env glm input_path).ocr_calls⟩ := by
    simp only [preStructured, hfalse, Bool.false_eq_true, if_false]
  have hrun : process_thinking env input_path = .ok
      ⟨⟨(applyStructuring env input_path
          (thinkMid env glm input_path).block_results
          (combinedText (thinkMid env glm input_path).block_results)
          (thinkMid env glm input_path).pipeline_steps).1,
        [], combinedConfidence (thinkMid env glm input_path).block_results,
        thinkingMetadata
          (applyStructuring env input_path
            (thinkMid env glm input_path).block_results
            (combinedText (thinkMid env glm input_path).block_results)
            (thinkMid env glm input_path).pipeline_steps).2
          (thinkMid env glm input_path).blocks
          (thinkMid env glm input_path).block_results⟩,
       (thinkMid env glm input_path).fs,
       (thinkMid env glm input_path).ocr_calls⟩ := by
    simp only [process_thinking, hglm, hpre]
  refine ⟨_, hrun, ?_, rfl, ?_⟩
  · simp [mlookup, thinkingMetadata]
  · intro hnr
    exact applyStructuring_text_of_not_replaced env input_path _ _ _ hnr

/-- Bounding boxes of the two witness blocks. -/
def bboxA : BBox := ⟨0, 0, 5, 5⟩

/-- Bounding box of the second witness block. -/
def bboxB : BBox := ⟨0, 5, 5, 9⟩

/-- First witness block, a text block. -/
def blockA : Block := ⟨1, bboxA, some "text"⟩

/-- Second witness block, a gauge block. -/
def blockB : Block := ⟨2, bboxB, some "gauge"⟩

/-- Engine reading the two crops with confidences nine and seven tenths. -/
def glmAgg : GlmFn := fun p =>
  if p = "crops/a.png" then .ok ⟨"alpha", 9/10, []⟩
  else if p = "crops/b.png" then .ok ⟨"beta", 7/10, []⟩
  else .error "unexpected path"

/-- Environment for the aggregation witness run. -/
def envAggW : Env :=
  { glm_ocr := some glmAgg, marker := true,
    extract_layout_blocks := fun _ => .ok [blockA, blockB],
    save_cropped_block := fun _ bb =>
      if bb = bboxA then .ok "crops/a.png" else .ok "crops/b.png",
    provider := none, fs0 := [] }

/-- Witness for the aggregation contract: two blocks with confidences nine
and seven tenths aggregate to four fifths. -/
theorem thinking_aggregation_contract_witness :
    ∃ run, process_thinking envAggW "doc.pdf" = .ok run ∧
      mlookup "blocks" run.result.metadata =
        some (.blocks (thinkMid envAggW glmAgg "doc.pdf").block_results) ∧
      run.result.confidence =
        (let cs := ((thinkMid envAggW glmAgg "doc.pdf").block_results.filter
            (fun b => decide (0 < b.confidence))).map (fun b => b.confidence)
         if cs.isEmpty then 0 else cs.sum / (cs.length : ℚ)) ∧
      (¬ structuringReplaced envAggW "doc.pdf"
          (thinkMid envAggW glmAgg "doc.pdf").block_results
          (combinedText (thinkMid envAggW glmAgg "doc.pdf").block_results) →
        run.result.text = String.intercalate "\n\n"
          (((thinkMid envAggW glmAgg "doc.pdf").block_results.filter
            (fun b => b.text != "")).map (fun b => b.text))) :=
  thinking_aggregation_contract envAggW "doc.pdf" glmAgg rfl (by decide)

/-- Engine whose first crop reads empty text with full confidence and
whose second crop reads text with confidence one half. -/
def glmC3 : GlmFn := fun p =>
  if p = "crops/a.png" then .ok ⟨"", 1, []⟩
  else if p = "crops/b.png" then .ok ⟨"hi", 1/2, []⟩
  else .error "unexpected path"

/-- Environment producing a surviving block with empty text and positive
confidence. -/
def envC3cex : Env :=
  { glm_ocr := some glmC3, marker := true,
    extract_layout_blocks := fun _ => .ok [blockA, blockB],
    save_cropped_block := fun _ bb =>
      if bb = bboxA then .ok "crops/a.png" else .ok "crops/b.png",
    provider := none, fs0 := [] }

/-- The same layout run with a succeeding structuring capability. -/
def envC3cexB : Env :=
  { glm_ocr := some glmC3, marker := true,
    extract_layout_blocks := fun _ => .ok [blockA, blockB],
    save_cropped_block := fun _ bb =>
      if bb = bboxA then .ok "crops/a.png" else .ok "crops/b.png",
    provider := some provStructW, fs0 := [] }

/-- The block records surviving either counterexample run. -/
def brsC3 : List BlockResult :=
  [⟨1, bboxA, "text", "", 1⟩, ⟨2, bboxB, "gauge", "hi", 1/2⟩]

/-- C3 counterexample: the source averages every positive confidence among
the surviving blocks, so a block with empty text and full confidence lifts
the run's confidence to three quarters while the claim's mean over blocks
that produced text is one half; and with a succeeding structuring stage
the result's text is not the blank-line concatenation. -/
theorem thinking_aggregation_counterexample :
    (process_thinking envC3cex "doc.pdf" = .ok
      ⟨⟨combinedText brsC3, [], combinedConfidence brsC3,
        thinkingMetadata ["marker-layout", "glm-ocr-blocks"]
          [blockA, blockB] brsC3⟩,
       [], ["crops/a.png", "crops/b.png"]⟩ ∧
      combinedConfidence brsC3 = 3/4 ∧
      claimedCombinedConfidence brsC3 = 1/2 ∧
      combinedConfidence brsC3 ≠ claimedCombinedConfidence brsC3) ∧
    (process_thinking envC3cexB "doc.pdf" = .ok
      ⟨⟨"structured analysis", [], combinedConfidence brsC3,
        thinkingMetadata
          ["marker-layout", "glm-ocr-blocks", "qwen3-vl-structure"]
          [blockA, blockB] brsC3⟩,
       [], ["crops/a.png", "crops/b.png"]⟩ ∧
      combinedText brsC3 = "hi" ∧
      ("structured analysis" : String) ≠ combinedText brsC3) := by
  have hcode : combinedConfidence brsC3 = 3/4 := by
    norm_num [combinedConfidence, brsC3]
  have hclaim : claimedCombinedConfidence brsC3 = 1/2 := by
    simp only [claimedCombinedConfidence]
    rw [show List.filter (fun b => b.text != "") brsC3 =
        [⟨2, bboxB, "gauge", "hi", 1/2⟩] from by simp [brsC3]]
    norm_num
  have htext : combinedText brsC3 = "hi" := rfl
  refine ⟨⟨rfl, hcode, hclaim, ?_⟩, rfl, htext, ?_⟩
  · rw [hcode, hclaim]
    norm_num
  · rw [htext]
    decide

/-! ## Per-block failure isolation (claim C5) -/

/-- The thinking strategy completes whenever the fallback OCR succeeds in
case no block survived, and the metadata records the surviving blocks. -/
lemma process_thinking_ok (env : Env) (glm : GlmFn) (input_path : String)
    (hglm : env.glm_ocr = some glm)
    (hfb : (thinkMid env glm input_path).block_results = [] →
      ∃ g, glm input_path = .ok g) :
    ∃ run, process_thinking env input_path = .ok run ∧
      mlookup "blocks" run.result.metadata =
        some (.blocks (thinkMid env glm input_path).block_results) := by
  by_cases hbr : (thinkMid env glm input_path).block_results = []
  · obtain ⟨g, hg⟩ := hfb hbr
    have hpre : preStructured env glm input_path = .ok
        ⟨thinkMid env glm input_path, g.text, g.confidence,
         (thinkMid env glm input_path).pipeline_steps ++ ["glm-ocr-fallback"],
         (thinkMid env glm input_path).ocr_calls ++ [input_path]⟩ := by
      simp only [preStructured, hbr, List.isEmpty_nil, if_true, hg]
    have hrun : process_thinking env input_path = .ok
        ⟨⟨(applyStructuring env input_path
            (thinkMid env glm input_path).block_results g.text
            ((thinkMid env glm input_path).pipeline_steps ++
              ["glm-ocr-fallback"])).1,
          [], g.confidence,
          thinkingMetadata
            (applyStructuring env input_path
              (thinkMid env glm input_path).block_results g.text
              ((thinkMid env glm input_path).pipeline_steps ++
                ["glm-ocr-fallback"])).2
            (thinkMid env glm input_path).blocks
            (thinkMid env glm input_path).block_results⟩,
         (thinkMid env glm input_path).fs,
         (thinkMid env glm input_path).ocr_calls ++ [input_path]⟩ := by
      simp only [process_thinking, hglm, hpre]
    exact ⟨_, hrun, by simp [mlookup, thinkingMetadata]⟩
  · have hfalse : (thinkMid env glm input_path).block_results.isEmpty =
        false := by
      cases hb2 : (thinkMid env glm input_path).block_results with
      | nil => exact absurd hb2 hbr
      | cons a l => rfl
    have hpre : preStructured env glm input_path = .ok
        ⟨thinkMid env glm input_path,
         combinedText (thinkMid env glm input_path).block_results,
         combinedConfidence (thinkMid env glm input_path).block_results,
         (thinkMid env glm input_path).pipeline_steps,
         (thinkMid env glm input_path).ocr_calls⟩ := by
      simp only [preStructured, hfalse, Bool.false_eq_true, if_false]
    have hrun : process_thinking env input_path = .ok
        ⟨⟨(applyStructuring env input_path
            (thinkMid env glm input_path).block_results
            (combinedText (thinkMid env glm input_path).block_results)
            (thinkMid env glm input_path).pipeline_steps).1,
          [], combinedConfidence (thinkMid env glm input_path).block_results,
          thinkingMetadata
            (applyStructuring env input_path
              (thinkMid env glm input_path).block_results
              (combinedText (thinkMid env glm input_path).block_results)
              (thinkMid env glm input_path).pipeline_steps).2
            (thinkMid env glm input_path).blocks
            (thinkMid env glm input_path).block_results⟩,
         (thinkMid env glm input_path).fs,
         (thinkMid env glm input_path).ocr_calls⟩ := by
      simp only [process_thinking, hglm, hpre]
    exact ⟨_, hrun, by simp [mlookup, thinkingMetadata]⟩

/-- C5 (amended): a failing block is caught: it contributes nothing to the
aggregated block records, every other block contributes exactly as it
would without the failing block, and the run completes provided that, when
no block at all survived, the whole-input fallback OCR succeeds. -/
theorem block_failure_isolation (env : Env) (glm : GlmFn)
    (input_path : String) (pre post : List Block) (b : Block)
    (hglm : env.glm_ocr = some glm)
    (hmk : env.marker = true) (hpdf : isPdfInput input_path = true)
    (hext : env.extract_layout_blocks input_path = .ok (pre ++ b :: post))
    (hfail : (∃ e, env.save_cropped_block input_path b.bbox = .error e) ∨
      (∃ tmp e, env.save_cropped_block input_path b.bbox = .ok tmp ∧
        glm tmp = .error e))
    (hfb : (thinkMid env glm input_path).block_results = [] →
      ∃ g, glm input_path = .ok g) :
    (thinkMid env glm input_path).block_results =
      ((pre ++ post).map (blockDelta env glm input_path)).flatten ∧
    ∃ run, process_thinking env input_path = .ok run ∧
      mlookup "blocks" run.result.metadata = some
        (.blocks (((pre ++ post).map
          (blockDelta env glm input_path)).flatten)) := by
  have hne : (pre ++ b :: post).isEmpty = false := by
    cases pre <;> rfl
  have hmid : (thinkMid env glm input_path).block_results =
      ((pre ++ post).map (blockDelta env glm input_path)).flatten := by
    simp only [thinkMid, hmk, hpdf, Bool.and_self, if_true, hext, hne,
      Bool.false_eq_true, if_false]
    rw [foldl_block_results]
    rw [List.map_append, List.flatten_append, List.map_cons,
      List.flatten_cons, blockDelta_eq_nil_of_fail env glm input_path b hfail]
    simp [List.map_append, List.flatten_append]
  refine ⟨hmid, ?_⟩
  obtain ⟨run, hrun, hblocks⟩ :=
    process_thinking_ok env glm input_path hglm hfb
  refine ⟨run, hrun, ?_⟩
  rw [hblocks, hmid]

/-- Third witness block, whose crop raises. -/
def bboxC : BBox := ⟨5, 0, 9, 9⟩

/-- The failing witness block. -/
def blockC : Block := ⟨3, bboxC, some "chart"⟩

/-- Engine knowing both surviving crops and failing elsewhere. -/
def glmB5 : GlmFn := fun p =>
  if p = "crops/a.png" then .ok ⟨"alpha", 9/10, []⟩
  else if p = "crops/b.png" then .ok ⟨"beta", 7/10, []⟩
  else .error "ocr failed"

/-- Environment in which the middle block's crop raises. -/
def envBlockFailW : Env :=
  { glm_ocr := some glmB5, marker := true,
    extract_layout_blocks := fun _ => .ok [blockA, blockC, blockB],
    save_cropped_block := fun _ bb =>
      if bb = bboxA then .ok "crops/a.png"
      else if bb = bboxB then .ok "crops/b.png"
      else .error "crop failed",
    provider := none, fs0 := [] }

/-- Witness for failure isolation: of three blocks the middle one fails;
the other two contribute exactly their isolated records. -/
theorem block_failure_isolation_witness :
    (thinkMid envBlockFailW glmB5 "doc.pdf").block_results =
      (([blockA] ++ [blockB]).map
        (blockDelta envBlockFailW glmB5 "doc.pdf")).flatten ∧
    ∃ run, process_thinking envBlockFailW "doc.pdf" = .ok run ∧
      mlookup "blocks" run.result.metadata = some
        (.blocks ((([blockA] ++ [blockB]).map
          (blockDelta envBlockFailW glmB5 "doc.pdf")).flatten)) :=
  block_failure_isolation envBlockFailW glmB5 "doc.pdf" [blockA] [blockB]
    blockC rfl rfl rfl rfl (Or.inl ⟨"crop failed", rfl⟩)
    (fun h => absurd h (by decide))

/-- Environment with a single failing block and a failing fallback OCR. -/
def envBlockFailCex : Env :=
  { glm_ocr := some (fun _ => .error "ocr engine down"), marker := true,
    extract_layout_blocks := fun _ => .ok [blockA],
    save_cropped_block := fun _ _ => .error "crop failed",
    provider := none, fs0 := [] }

/-- C5 counterexample: with a single block whose crop raises and a
fallback OCR that also raises, the block's own error is caught yet the run
does not complete — the fallback error escapes — refuting the claim's
unconditional completion. -/
theorem block_failure_counterexample :
    envBlockFailCex.save_cropped_block "doc.pdf" blockA.bbox =
      .error "crop failed" ∧
    process_thinking envBlockFailCex "doc.pdf" =
      .error "ocr engine down" :=
  ⟨rfl, rfl⟩

/-! ## Structuring stage contract (claim C7) -/

/-- C7: for every thinking run whose provider exposes the structuring
capability and that reaches the structuring stage: on success the combined
text is replaced by the capability's output and the stage is recorded; on
any error the prior combined text is kept, the stage is not recorded, and
the run is not aborted; in both cases the confidence is unchanged. -/
theorem structuring_stage_contract (env : Env) (input_path : String)
    (glm : GlmFn) (prov : Provider) (agg : MidAgg)
    (hglm : env.glm_ocr = some glm)
    (hprov : env.provider = some prov)
    (hcap : prov.hasStructureBlocks = true)
    (hpre : preStructured env glm input_path = .ok agg) :
    ∃ run, process_thinking env input_path = .ok run ∧
      run.result.confidence = agg.combined_confidence ∧
      (match prov.structure_blocks input_path
          (blocksForAnalysis agg.mid.block_results agg.combined_text) with
       | .ok r => run.result.text = r.text ∧
           mlookup "pipeline" run.result.metadata =
             some (.strList (agg.pipeline_steps ++ ["qwen3-vl-structure"]))
       | .error _ => run.result.text = agg.combined_text ∧
           mlookup "pipeline" run.result.metadata =
             some (.strList agg.pipeline_steps)) := by
  rcases hsb : prov.structure_blocks input_path
      (blocksForAnalysis agg.mid.block_results agg.combined_text) with e | r
  · have hrun : process_thinking env input_path = .ok
        ⟨⟨agg.combined_text, [], agg.combined_confidence,
          thinkingMetadata agg.pipeline_steps agg.mid.blocks
            agg.mid.block_results⟩,
         agg.mid.fs, agg.ocr_calls⟩ := by
      simp only [process_thinking, hglm, hpre, applyStructuring, hprov,
        hcap, if_true, hsb]
    exact ⟨_, hrun, rfl, rfl, by simp [mlookup, thinkingMetadata]⟩
  · have hrun : process_thinking env input_path = .ok
        ⟨⟨r.text, [], agg.combined_confidence,
          thinkingMetadata (agg.pipeline_steps ++ ["qwen3-vl-structure"])
            agg.mid.blocks agg.mid.block_results⟩,
         agg.mid.fs, agg.ocr_calls⟩ := by
      simp only [process_thinking, hglm, hpre, applyStructuring, hprov,
        hcap, if_true, hsb]
    exact ⟨_, hrun, rfl, rfl, by simp [mlookup, thinkingMetadata]⟩

/-- Witness for the structuring contract at a concrete successful call. -/
theorem structuring_stage_contract_witness :
    ∃ run, process_thinking envC2cex "img.png" = .ok run ∧
      run.result.confidence =
        (⟨⟨[], [], [], [], []⟩, "A", 1/2, ["glm-ocr-fallback"],
          ["img.png"]⟩ : MidAgg).combined_confidence ∧
      (match provStructW.structure_blocks "img.png"
          (blocksForAnalysis
            (⟨⟨[], [], [], [], []⟩, "A", 1/2, ["glm-ocr-fallback"],
              ["img.png"]⟩ : MidAgg).mid.block_results
            (⟨⟨[], [], [], [], []⟩, "A", 1/2, ["glm-ocr-fallback"],
              ["img.png"]⟩ : MidAgg).combined_text) with
       | .ok r => run.result.text = r.text ∧
           mlookup "pipeline" run.result.metadata =
             some (.strList
               ((⟨⟨[], [], [], [], []⟩, "A", 1/2, ["glm-ocr-fallback"],
                 ["img.png"]⟩ : MidAgg).pipeline_steps ++
                 ["qwen3-vl-structure"]))
       | .error _ => run.result.text =
             (⟨⟨[], [], [], [], []⟩, "A", 1/2, ["glm-ocr-fallback"],
               ["img.png"]⟩ : MidAgg).combined_text ∧
           mlookup "pipeline" run.result.metadata =
             some (.strList
               (⟨⟨[], [], [], [], []⟩, "A", 1/2, ["glm-ocr-fallback"],
                 ["img.png"]⟩ : MidAgg).pipeline_steps)) :=
  structuring_stage_contract envC2cex "img.png" glmA provStructW
    ⟨⟨[], [], [], [], []⟩, "A", 1/2, ["glm-ocr-fallback"], ["img.png"]⟩
    rfl rfl rfl rfl

/-! ## Run-log record (claim C9) -/

/-- C9 (amended): each `log_ocr_run` call writes exactly one record at
`logs/ocr/{mode}_{timestamp}.json` — second-granular, so two runs of the
same mode in the same second share a path — containing the ISO timestamp,
mode, input path, the execution time rounded to two decimals, and a full
snapshot of the result's text, confidence, and metadata. -/
theorem run_log_record_contract (mode tsc tsi input_path : String)
    (result : OCRResult) (t : ℚ) :
    (log_ocr_run mode tsc tsi input_path result t).1 =
      "logs/ocr/" ++ mode ++ "_" ++ tsc ++ ".json" ∧
    (log_ocr_run mode tsc tsi input_path result t).2.timestamp = tsi ∧
    (log_ocr_run mode tsc tsi input_path result t).2.mode = mode ∧
    (log_ocr_run mode tsc tsi input_path result t).2.input_path =
      input_path ∧
    (log_ocr_run mode tsc tsi input_path result t).2.execution_time_seconds =
      round2 t ∧
    (log_ocr_run mode tsc tsi input_path result t).2.result_text =
      result.text ∧
    (log_ocr_run mode tsc tsi input_path result t).2.result_confidence =
      result.confidence ∧
    (log_ocr_run mode tsc tsi input_path result t).2.result_metadata =
      result.metadata :=
  ⟨rfl, rfl, rfl, rfl, rfl, rfl, rfl, rfl⟩

/-- One concrete result to log. -/
def resLogA : OCRResult :=
  ⟨"text a", [], 1/2, fastMetadata ["qwen3-vl-visual", "glm-ocr"] "va"⟩

/-- Another concrete result to log. -/
def resLogB : OCRResult :=
  ⟨"text b", [], 3/4, fastMetadata ["qwen3-vl-visual", "glm-ocr"] "vb"⟩

/-- C9 counterexample: two distinct runs — different inputs and results —
whose mode and wall-clock second coincide are logged to the same file, so
the naming scheme does not prevent concurrent runs from writing to the
same file. -/
theorem run_log_name_collision :
    (log_ocr_run "fast" "20260101_120000" "2026-01-01T12:00:00.000001"
      "a.png" resLogA (1/2)).1 =
    (log_ocr_run "fast" "20260101_120000" "2026-01-01T12:00:00.900000"
      "b.png" resLogB (3/10)).1 ∧
    (log_ocr_run "fast" "20260101_120000" "2026-01-01T12:00:00.000001"
      "a.png" resLogA (1/2)).2.input_path ≠
    (log_ocr_run "fast" "20260101_120000" "2026-01-01T12:00:00.900000"
      "b.png" resLogB (3/10)).2.input_path :=
  ⟨rfl, by decide⟩

end OCRAgent
